import Mathlib

/-!
Verification of the installer front-end in `desktop-app/src/App.tsx`
(index-tts-desktop). The relevant program state lives in React `useState`
hooks; we embed it as an explicit record `AppState`, embed the pure
helper `getSystemStatus` directly, and embed the asynchronous
`startInstallation` function (together with its `setInterval` poll loop)
as a function from the current state and a schedule of host-process
responses to a final state plus the ordered list of host calls issued.
-/

namespace IndexTTS

/-- Embeds the `SystemInfo` interface (App.tsx lines 12-25): the machine
profile returned by the `get_system_info` host command. Byte counts are
naturals; the optional tool-version strings are `Option String`. -/
structure SystemInfo where
  os : String
  os_version : String
  cpu_name : String
  cpu_cores : Nat
  total_memory : Nat
  available_memory : Nat
  total_disk_space : Nat
  available_disk_space : Nat
  gpu_info : List String
  python_version : Option String
  git_version : Option String
  cuda_available : Bool
deriving Repr, DecidableEq

/-- Embeds the `InstallProgress` interface (App.tsx lines 27-33). The
JS `progress` number is embedded as a rational. -/
structure InstallProgress where
  step : String
  progress : ℚ
  message : String
  is_complete : Bool
  has_error : Bool
deriving Repr, DecidableEq

/-- Embeds the `InstallConfig` interface (App.tsx lines 35-39). -/
structure InstallConfig where
  install_path : String
  model_type : String
  use_gpu : Bool
deriving Repr, DecidableEq

/-- The React state hooks of the `App` component (App.tsx lines 42-58),
gathered into one record. -/
structure AppState where
  systemInfo : Option SystemInfo
  loading : Bool
  installing : Bool
  isWebEnvironment : Bool
  installProgress : InstallProgress
  error : Option String
  installConfig : InstallConfig
deriving Repr, DecidableEq

/-- Initial value of the `installProgress` hook (App.tsx lines 46-52),
also the value the retry button resets to (lines 615-621). -/
def initialInstallProgress : InstallProgress :=
  { step := "idle", progress := 0, message := "", is_complete := false, has_error := false }

/-- Initial value of the `installConfig` hook (App.tsx lines 54-58).
Note the fallback `model_type` is the string "base". -/
def initialInstallConfig : InstallConfig :=
  { install_path := "/Users/Shared/IndexTTS", model_type := "base", use_gpu := false }

/-- Verdict values produced by `getSystemStatus` (the `status` field of
its result object): the strings "unknown", "good", "warning", "error". -/
inductive Verdict where
  | unknown
  | good
  | warning
  | error
deriving Repr, DecidableEq

/-- The `issues` array built by `getSystemStatus` (App.tsx lines 123-143):
one fixed diagnostic string is pushed for each of the four checks that
fails, in source order. -/
def systemIssues (info : SystemInfo) : List String :=
  (if info.total_memory < 8 * 1024 * 1024 * 1024 then ["内存不足8GB，可能影响性能"] else []) ++
  (if info.available_disk_space < 10 * 1024 * 1024 * 1024 then ["可用磁盘空间不足10GB"] else []) ++
  (if info.python_version = none then ["未检测到Python"] else []) ++
  (if info.git_version = none then ["未检测到Git"] else [])

/-- Embeds `getSystemStatus` (App.tsx lines 120-152). The source closes
over the `systemInfo` hook; we pass it explicitly. The source returns a
status string and a formatted message; the message is built from the
`issues` array, which we return alongside the status. -/
def getSystemStatus : Option SystemInfo → Verdict × List String
  | none => (Verdict.unknown, [])
  | some info =>
      let issues := systemIssues info
      if issues.length = 0 then (Verdict.good, issues)
      else if issues.length ≤ 2 then (Verdict.warning, issues)
      else (Verdict.error, issues)

/-- A host-process command issued through `invoke` during a run of
`startInstallation`. -/
inductive HostCall where
  | start_installation (config : InstallConfig)
  | get_installation_progress
deriving Repr, DecidableEq

/-- Outcome of the `invoke` call `start_installation` (App.tsx line 166):
either it resolves, or it rejects with an error rendered as a string. -/
inductive StartResponse where
  | ok
  | err (msg : String)
deriving Repr, DecidableEq

/-- Outcome of one `get_installation_progress` poll (App.tsx line 172):
a progress report, or a rejected promise rendered as a string. -/
inductive PollResponse where
  | ok (p : InstallProgress)
  | err (msg : String)
deriving Repr, DecidableEq

/-- Embeds the `setInterval` poll callback of `startInstallation`
(App.tsx lines 170-190), run over a schedule of host responses: each
tick issues one `get_installation_progress` call and consumes the next
response. A transport error clears the interval, sets `installing`
false and stores the prefixed error (lines 184-189). A report is stored
wholesale (line 174); if its `is_complete` or `has_error` flag is set
the interval is cleared, `installing` is set false, and on `has_error`
the prefixed failure message is stored (lines 176-183); otherwise the
loop continues with the next tick. Returns the final state and the
ordered poll calls issued. -/
def pollLoop (s : AppState) : List PollResponse → AppState × List HostCall
  | [] => (s, [])
  | PollResponse.err msg :: _ =>
      ({ s with installing := false,
                error := some ("获取安装进度失败: " ++ msg) },
       [HostCall.get_installation_progress])
  | PollResponse.ok p :: rest =>
      let s1 := { s with installProgress := p }
      if p.is_complete || p.has_error then
        let s2 := { s1 with installing := false }
        let s3 := if p.has_error
                  then { s2 with error := some ("安装失败: " ++ p.message) }
                  else s2
        (s3, [HostCall.get_installation_progress])
      else
        let next := pollLoop s1 rest
        (next.1, HostCall.get_installation_progress :: next.2)

/-- Embeds `startInstallation` (App.tsx lines 154-196). In a web
environment it alerts and returns with no call and no state change
(lines 156-159). Otherwise it sets `installing` true and clears `error`
(lines 161-162), issues the `start_installation` call with the current
config (line 166); on rejection it sets `installing` false and stores
the prefixed error (lines 191-195); on success it runs the poll loop. -/
def startInstallation (s : AppState) (startResp : StartResponse)
    (polls : List PollResponse) : AppState × List HostCall :=
  if s.isWebEnvironment then (s, [])
  else
    let s1 := { s with installing := true, error := none }
    match startResp with
    | StartResponse.err msg =>
        ({ s1 with installing := false,
                   error := some ("启动安装失败: " ++ msg) },
         [HostCall.start_installation s.installConfig])
    | StartResponse.ok =>
        let run := pollLoop s1 polls
        (run.1, HostCall.start_installation s.installConfig :: run.2)

/-- Embeds the onClick handler of the retry button (App.tsx lines
613-622): sets `installing` to false and restores `installProgress` to
the initial record. It does not touch `error`. -/
def resetInstallation (s : AppState) : AppState :=
  { s with installing := false, installProgress := initialInstallProgress }

/-- The render condition of the retry button: it sits inside the
`installing` branch of the JSX (App.tsx lines 462/534) and under the
`installProgress.has_error` guard (line 606), so it is reachable only
when both hold. -/
def resetAvailable (s : AppState) : Bool :=
  s.installing && s.installProgress.has_error

/-- The ordered `key` identifiers of the five installation steps
rendered during installation (App.tsx lines 553-558). -/
def installStepKeys : List String :=
  ["preparing", "downloading", "models", "dependencies", "configuring"]

/-- Embeds `isActive` (App.tsx line 560): the step at index `i` is
active when its key equals the report's `step` string. -/
def stepIsActive (p : InstallProgress) (i : Fin 5) : Bool :=
  p.step == installStepKeys.get i

/-- Embeds `isCompleted` (App.tsx line 561): the step at index `i` is
complete when the report's percentage strictly exceeds
`(i / 5) * 100`. -/
def stepIsCompleted (p : InstallProgress) (i : Fin 5) : Bool :=
  decide (((i.val : ℚ) / 5) * 100 < p.progress)

/-- The `value` attributes of the three options of the model-type
selector (App.tsx lines 502-504). -/
def modelTypeOptions : List String := ["standard", "large", "small"]

/-- Embeds the `disabled` expression of the start button (App.tsx line
527), with `systemStatus` as computed on line 215. -/
def startButtonDisabled (s : AppState) : Bool :=
  s.systemInfo.isNone || decide ((getSystemStatus s.systemInfo).1 = Verdict.error) ||
    s.isWebEnvironment || s.installing

/-- A concrete idle desktop-environment state: the initial hook values
with the environment probe having succeeded (`isWebEnvironment` false,
`loading` finished). -/
def idleDesktopState : AppState :=
  { systemInfo := none, loading := false, installing := false, isWebEnvironment := false,
    installProgress := initialInstallProgress, error := none,
    installConfig := initialInstallConfig }

/-- A concrete post-completion state: the poll handler has stored a
report with `is_complete` true and set `installing` false. -/
def completedState : AppState :=
  { systemInfo := none, loading := false, installing := false, isWebEnvironment := false,
    installProgress := { step := "configuring", progress := 100, message := "done",
                         is_complete := true, has_error := false },
    error := none, installConfig := initialInstallConfig }

/-- A mid-installation report at 40 percent with both flags false. -/
def reportAt40 : InstallProgress :=
  { step := "downloading", progress := 40, message := "下载中",
    is_complete := false, has_error := false }

/-- A final report at 100 percent with the completion flag set. -/
def reportDone : InstallProgress :=
  { step := "configuring", progress := 100, message := "完成",
    is_complete := true, has_error := false }

/-- C2: for every MachineProfile the evaluator emits exactly one
diagnostic per failing check (the four fixed checks, with the stated
cutoffs), derives the verdict from the diagnostic count (0 good, 1-2
warning, at least 3 error), and with no profile yields unknown with no
diagnostics. -/
theorem C2_system_status_verdict :
    getSystemStatus none = (Verdict.unknown, []) ∧
    ∀ info : SystemInfo,
      (getSystemStatus (some info)).2 = systemIssues info ∧
      (("内存不足8GB，可能影响性能" ∈ systemIssues info) ↔ info.total_memory < 8 * 2 ^ 30) ∧
      (("可用磁盘空间不足10GB" ∈ systemIssues info) ↔ info.available_disk_space < 10 * 2 ^ 30) ∧
      (("未检测到Python" ∈ systemIssues info) ↔ info.python_version = none) ∧
      (("未检测到Git" ∈ systemIssues info) ↔ info.git_version = none) ∧
      (systemIssues info).length =
        ((if info.total_memory < 8 * 2 ^ 30 then 1 else 0) +
         (if info.available_disk_space < 10 * 2 ^ 30 then 1 else 0) +
         (if info.python_version = none then 1 else 0) +
         (if info.git_version = none then 1 else 0)) ∧
      (getSystemStatus (some info)).1 =
        (if 3 ≤ (systemIssues info).length then Verdict.error
         else if 1 ≤ (systemIssues info).length then Verdict.warning
         else Verdict.good) := by
  refine ⟨rfl, fun info => ?_⟩
  by_cases hm : info.total_memory < 8589934592 <;>
    by_cases hd : info.available_disk_space < 10737418240 <;>
      by_cases hp : info.python_version = none <;>
        by_cases hg : info.git_version = none <;>
          simp [systemIssues, getSystemStatus, hm, hd, hp, hg]

/-- C1 counterexample: in the concrete non-idle state `completedState`
(an installation has completed), invoking `startInstallation` does
issue a `start_installation` host call and does change the in-flight
flag, refuting the claim that start outside idle is side-effect free. -/
theorem C1_start_after_completion_counterexample :
    completedState.installing = false ∧
    completedState.installProgress.is_complete = true ∧
    (startInstallation completedState StartResponse.ok []).2 =
      [HostCall.start_installation initialInstallConfig] ∧
    (startInstallation completedState StartResponse.ok []).1.installing = true ∧
    (startInstallation completedState StartResponse.ok []).1 ≠ completedState := by
  exact ⟨rfl, rfl, rfl, rfl, by decide⟩

/-- C1 amended: `startInstallation` itself guards only on the
restricted (web) environment: there it is a no-op (no call, no state
change); in every other state — idle or not, including while an
installation is in flight or after completion — it issues the
`start_installation` call with the current config. State-based gating
exists only at the UI button, not in the function. -/
theorem C1_start_guard_amended :
    ∀ (s : AppState) (resp : StartResponse) (polls : List PollResponse),
      (startInstallation { s with isWebEnvironment := true } resp polls =
        ({ s with isWebEnvironment := true }, [])) ∧
      ((startInstallation { s with isWebEnvironment := false } resp polls).2.head? =
        some (HostCall.start_installation s.installConfig)) := by
  intro s resp polls
  refine ⟨rfl, ?_⟩
  cases resp <;> simp [startInstallation]

/-- C3: a poll tick answered by a report with the failed flag set stops
the loop (exactly one poll call, whatever responses would follow),
clears the in-flight flag and surfaces the report's message (prefixed)
as the failure reason; a report with only the finished flag set stops
the loop and clears the in-flight flag with no error; a report with
both flags false stores the report wholesale, leaves the in-flight flag
unchanged and lets the loop continue. -/
theorem C3_poll_tick_transitions :
    ∀ (s : AppState) (st m : String) (pc : ℚ) (ic : Bool) (rest : List PollResponse),
      (pollLoop s (PollResponse.ok ⟨st, pc, m, ic, true⟩ :: rest) =
        ({ s with installProgress := ⟨st, pc, m, ic, true⟩, installing := false,
                  error := some ("安装失败: " ++ m) },
         [HostCall.get_installation_progress])) ∧
      (pollLoop s (PollResponse.ok ⟨st, pc, m, true, false⟩ :: rest) =
        ({ s with installProgress := ⟨st, pc, m, true, false⟩, installing := false },
         [HostCall.get_installation_progress])) ∧
      (pollLoop s (PollResponse.ok ⟨st, pc, m, false, false⟩ :: rest) =
        ((pollLoop { s with installProgress := ⟨st, pc, m, false, false⟩ } rest).1,
         HostCall.get_installation_progress ::
           (pollLoop { s with installProgress := ⟨st, pc, m, false, false⟩ } rest).2)) ∧
      (pollLoop s [PollResponse.ok ⟨st, pc, m, false, false⟩]).1.installing = s.installing := by
  intro s st m pc ic rest
  refine ⟨?_, ?_, ?_, ?_⟩ <;> simp [pollLoop]

/-- C4 counterexample: after an accepted start, a transport error
"boom" on the first poll leaves the surfaced message equal to the
prefixed string, not to the transport error text itself. -/
theorem C4_transport_error_counterexample :
    (startInstallation idleDesktopState StartResponse.ok [PollResponse.err "boom"]).1.error =
      some ("获取安装进度失败: " ++ "boom") ∧
    (startInstallation idleDesktopState StartResponse.ok [PollResponse.err "boom"]).1.error ≠
      some "boom" := by
  exact ⟨rfl, by decide⟩

/-- C4 amended: a transport error on a poll tick stops the loop (one
poll call, whatever would follow), clears the in-flight flag, and
surfaces the transport error text prefixed with the fixed label
"获取安装进度失败: " (not the bare text). -/
theorem C4_transport_error_amended :
    ∀ (s : AppState) (msg : String) (rest : List PollResponse),
      pollLoop s (PollResponse.err msg :: rest) =
        ({ s with installing := false, error := some ("获取安装进度失败: " ++ msg) },
         [HostCall.get_installation_progress]) := by
  intro s msg rest
  rfl

/-- C5 counterexample: a rejected start with message "nope" surfaces
the prefixed string, not the host's failure message verbatim. -/
theorem C5_start_failure_counterexample :
    (startInstallation idleDesktopState (StartResponse.err "nope") []).1.error =
      some ("启动安装失败: " ++ "nope") ∧
    (startInstallation idleDesktopState (StartResponse.err "nope") []).1.error ≠
      some "nope" := by
  exact ⟨rfl, by decide⟩

/-- C5 amended: when the start call fails in a non-restricted
environment, the controller returns to idle (in-flight flag false), no
poll call is issued (the only call is the start call), and the host's
failure message is surfaced prefixed with the fixed label
"启动安装失败: " (not verbatim). -/
theorem C5_start_failure_amended :
    ∀ (s : AppState) (msg : String) (polls : List PollResponse),
      startInstallation { s with isWebEnvironment := false } (StartResponse.err msg) polls =
        ({ s with isWebEnvironment := false, installing := false,
                  error := some ("启动安装失败: " ++ msg) },
         [HostCall.start_installation s.installConfig]) := by
  intro s msg polls
  rfl

/-- C6: in the run where start is accepted and the host answers the
first poll with a 40-percent report (both flags false) and the second
with a finished report, the calls issued are exactly the start call
followed by two poll calls (the model processes each tick before the
next is issued, so ticks never overlap), and the final state is
completed: in-flight flag false, finished report stored, no error. -/
theorem C6_two_poll_run_completes :
    (startInstallation idleDesktopState StartResponse.ok
        [PollResponse.ok reportAt40, PollResponse.ok reportDone]).2 =
      [HostCall.start_installation initialInstallConfig,
       HostCall.get_installation_progress, HostCall.get_installation_progress] ∧
    (startInstallation idleDesktopState StartResponse.ok
        [PollResponse.ok reportAt40, PollResponse.ok reportDone]).1.installing = false ∧
    (startInstallation idleDesktopState StartResponse.ok
        [PollResponse.ok reportAt40, PollResponse.ok reportDone]).1.installProgress =
      reportDone ∧
    (startInstallation idleDesktopState StartResponse.ok
        [PollResponse.ok reportAt40, PollResponse.ok reportDone]).1.error = none := by
  exact ⟨rfl, rfl, rfl, rfl⟩

/-- C7: the reset handler always yields the idle configuration — the
in-flight flag false and the ProgressReport restored exactly to the
initial record — and the reset affordance is available exactly when the
in-flight flag and the report's failed flag are both set; consequently
it is never available once `installing` has been cleared (as in
completed) nor while the report carries no error (as in running or
completed). -/
theorem C7_reset_only_from_failed :
    ∀ s : AppState,
      (resetInstallation s).installing = false ∧
      (resetInstallation s).installProgress =
        { step := "idle", progress := 0, message := "", is_complete := false,
          has_error := false } ∧
      (resetAvailable s = true ↔
        (s.installing = true ∧ s.installProgress.has_error = true)) ∧
      resetAvailable { s with installing := false } = false ∧
      resetAvailable
        { s with installProgress := { s.installProgress with has_error := false } } = false := by
  intro s
  refine ⟨rfl, rfl, ?_, ?_, ?_⟩ <;> simp [resetAvailable]

/-- C8: for every ProgressReport (including reports whose percentage
and phase name are mutually inconsistent — the functions are total over
all reports and read nothing but the report) and every index i of the
five fixed steps, the step is active exactly when its key equals the
report's step identifier, and complete exactly when the percentage
strictly exceeds (i / 5) x 100, i.e. 20 i. -/
theorem C8_phase_display_mapping :
    ∀ (p : InstallProgress) (i : Fin 5),
      (stepIsActive p i = true ↔ p.step = installStepKeys.get i) ∧
      (stepIsCompleted p i = true ↔ (i.val : ℚ) * 20 < p.progress) := by
  intro p i
  constructor
  · simp [stepIsActive]
  · have h : ((i.val : ℚ) / 5) * 100 = (i.val : ℚ) * 20 := by ring
    simp [stepIsCompleted, h]

/-- C9: the initial install config carries the model type "base",
which is none of the three selector options standard, large, small;
and starting from the initial (idle, desktop) state submits exactly
that config to the start call, so the submitted request violates the
claimed enumeration. -/
theorem C9_model_type_default_outside_enum :
    initialInstallConfig.model_type = "base" ∧
    initialInstallConfig.model_type ∉ modelTypeOptions ∧
    (startInstallation idleDesktopState StartResponse.ok []).2 =
      [HostCall.start_installation initialInstallConfig] := by
  exact ⟨rfl, by decide, rfl⟩

/-- C10: whenever no MachineProfile is present the start button is
disabled (whatever the other fields hold), and the absent-profile case
is exactly the one in which the computed verdict is unknown — so start
cannot be triggered before a successful profile fetch. -/
theorem C10_start_disabled_without_profile :
    ∀ s : AppState,
      startButtonDisabled { s with systemInfo := none } = true ∧
      (getSystemStatus none).1 = Verdict.unknown := by
  intro s
  exact ⟨rfl, rfl⟩

end IndexTTS
